import Mathlib

set_option maxHeartbeats 1000000
set_option maxRecDepth 4096

/-
Shallow embedding of the iBsng-Installer backup/restore orchestrator
(src/bot.py, with src/main.py noted where the two variants differ).

Modelling conventions:
* Python strings are modelled as Lean String; the restore output stream,
  which is sliced by character counts, is modelled as List Char so that
  take/drop/length mirror Python slicing.
* Wall-clock timestamps (time.time(), os.path.getmtime) are modelled as
  Int epoch seconds; the claims under verification only compare times at
  whole-second granularity.
* External effects (the backup script, the filesystem, the Telegram
  upload, the document download, config persistence) are modelled as an
  explicit environment record; the functions below record which effects
  the Python code performs (script invoked, file removed, messages sent,
  config saved) in an outcome record.
* Python truthiness of the values read from config.json is modelled
  explicitly: a string is truthy iff nonempty, a number is truthy iff
  nonzero, an absent key is falsy.
-/

/-- Python str.startswith, at character level (the character list view
keeps every definition below computable by the kernel). -/
def strStartsWith (s p : String) : Bool :=
  s.toList.take p.toList.length == p.toList

/-- Python str.endswith, at character level. -/
def strEndsWith (s p : String) : Bool :=
  s.toList.drop (s.toList.length - p.toList.length) == p.toList

/-- Python slicing s[n:], at character level. -/
def strDrop (s : String) (n : Nat) : String :=
  String.mk (s.toList.drop n)

/-- Helper of splitOnChar: accumulate the current piece in reverse. -/
def splitOnCharAux (sep : Char) : List Char → List Char → List String
  | [], cur => [String.mk cur.reverse]
  | c :: cs, cur =>
    if c = sep then String.mk cur.reverse :: splitOnCharAux sep cs []
    else splitOnCharAux sep cs (c :: cur)

/-- Python str.split(sep) for a one-character separator: empty pieces
are kept. -/
def splitOnChar (sep : Char) (s : String) : List String :=
  splitOnCharAux sep s.toList []

/-- Source constant RETENTION_DAYS = 3 (src/bot.py line 24). -/
def RETENTION_DAYS : Int := 3

/-- Source constant MIN_INTERVAL_HOURS = 2 (src/bot.py line 26); this is a
mutable global in the source (reassigned by the /time handler), so the
functions below take the current global value as a parameter with initial
value 2. -/
def MIN_INTERVAL_HOURS_INIT : Int := 2

/-- Source constant TEMP_DIR (src/bot.py line 30). -/
def TEMP_DIR : String := "/tmp/ibsng_restore"

/-- Source constant BACKUP_DIR (src/bot.py line 21). -/
def BACKUP_DIR : String := "/tmp/ibsng_backup_files"

/-- The persisted configuration (config.json): keys bot_token, chat_id,
last_backup, min_interval_hours; every key may be absent. -/
structure Config where
  bot_token : Option String
  chat_id : Option String
  last_backup : Option Int
  min_interval_hours : Option Int
deriving DecidableEq

/-- The empty configuration, the Python dict literal with no keys. -/
def emptyConfig : Config :=
  { bot_token := none, chat_id := none, last_backup := none, min_interval_hours := none }

/-- Python truthiness of an optional string: absent and the empty string
are falsy. -/
def optStrTruthy (o : Option String) : Bool :=
  (o.getD "") != ""

/-- src/bot.py line 181: if bot_token_local and chat_id_local. -/
def credsConfigured (cfg : Config) : Bool :=
  optStrTruthy cfg.bot_token && optStrTruthy cfg.chat_id

/-- src/bot.py line 117: config_data.get with the global default,
config_data.get with key min_interval_hours and default the mutable
global MIN_INTERVAL_HOURS (threaded as g). -/
def minIntervalHours (g : Int) (cfg : Config) : Int :=
  cfg.min_interval_hours.getD g

/-- src/bot.py lines 114-131, check_backup_interval: returns False when a
truthy last_backup exists and now - last_backup is below the minimum
interval in seconds, True otherwise. -/
def check_backup_interval (g : Int) (cfg : Config) (now : Int) : Bool :=
  match cfg.last_backup with
  | some last_backup =>
    if last_backup != 0 then
      let time_diff := now - last_backup
      let min_interval_seconds := minIntervalHours g cfg * 3600
      if time_diff < min_interval_seconds then false else true
    else
      true
  | none => true

/-- Environment of one run_backup_process call: the outcome of the
external backup script (exit status and stdout lines), the state of the
filesystem at the artifact path, the backup directory listing with
modification times, and whether the Telegram upload would succeed. -/
structure BackupEnv where
  scriptOk : Bool
  scriptStdout : List String
  fileExists : String → Bool
  fileSize : String → Nat
  backupDirListing : List (String × Int)
  sendOk : Bool

/-- src/bot.py lines 167-171: scan stdout lines for the first line that
starts with BACKUP_FILE_PATH= and take everything after the first
equals sign. -/
def parseBackupFilePath (lines : List String) : Option String :=
  match lines.find? (fun l => strStartsWith l "BACKUP_FILE_PATH=") with
  | some l => some (strDrop l "BACKUP_FILE_PATH=".toList.length)
  | none => none

/-- Observable outcome of one run_backup_process call: whether the
external script was spawned, whether the run returned early at the
throttle check, the boolean return value, the configuration as left in
memory (and saved iff configSaved), the artifact path removed by the
finally block, and the file names removed by the retention sweep. -/
structure BackupOutcome where
  scriptInvoked : Bool
  skipped : Bool
  success : Bool
  finalConfig : Config
  configSaved : Bool
  artifactRemoved : Option String
  oldFilesDeleted : List String
deriving DecidableEq

/-- src/bot.py lines 133-226, run_backup_process: throttle check unless
forced; run the backup script; parse the artifact path; if the artifact
exists and is non-empty, upload when credentials are configured, update
last_backup on upload success or when credentials are absent, always
remove the local artifact, then sweep .dump.gz files older than
RETENTION_DAYS from BACKUP_DIR; otherwise return False. -/
def run_backup_process (force : Bool) (g : Int) (cfg : Config) (now : Int)
    (env : BackupEnv) : BackupOutcome :=
  if !force && !check_backup_interval g cfg now then
    { scriptInvoked := false, skipped := true, success := false, finalConfig := cfg,
      configSaved := false, artifactRemoved := none, oldFilesDeleted := [] }
  else if !env.scriptOk then
    { scriptInvoked := true, skipped := false, success := false, finalConfig := cfg,
      configSaved := false, artifactRemoved := none, oldFilesDeleted := [] }
  else
    match parseBackupFilePath env.scriptStdout with
    | none =>
      { scriptInvoked := true, skipped := false, success := false, finalConfig := cfg,
        configSaved := false, artifactRemoved := none, oldFilesDeleted := [] }
    | some backup_file_path =>
      if backup_file_path != "" && env.fileExists backup_file_path
          && decide (0 < env.fileSize backup_file_path) then
        let updated := (credsConfigured cfg && env.sendOk) || !credsConfigured cfg
        { scriptInvoked := true, skipped := false, success := true,
          finalConfig := if updated then { cfg with last_backup := some now } else cfg,
          configSaved := updated,
          artifactRemoved := some backup_file_path,
          oldFilesDeleted :=
            ((env.backupDirListing.filter
              (fun e => strEndsWith e.1 ".dump.gz"
                && decide (e.2 < now - RETENTION_DAYS * 86400))).map Prod.fst) }
      else
        { scriptInvoked := true, skipped := false, success := false, finalConfig := cfg,
          configSaved := false, artifactRemoved := none, oldFilesDeleted := [] }

/-- The run was stopped at the throttle check: not forced and the
interval check failed (src/bot.py line 142). -/
def backupThrottled (force : Bool) (g : Int) (cfg : Config) (now : Int) : Bool :=
  !force && !check_backup_interval g cfg now

/-- The parsed artifact path names an existing non-empty file
(src/bot.py line 173). -/
def validArtifact (env : BackupEnv) : Bool :=
  match parseBackupFilePath env.scriptStdout with
  | some p => p != "" && env.fileExists p && decide (0 < env.fileSize p)
  | none => false

/-- A backup artifact was produced by this run: the run was not
throttled, the script exited successfully, and the parsed path names an
existing non-empty file. -/
def artifactProduced (force : Bool) (g : Int) (cfg : Config) (now : Int)
    (env : BackupEnv) : Bool :=
  !backupThrottled force g cfg now && env.scriptOk && validArtifact env

/-- src/bot.py lines 44-57, load_config. The backing file is either
missing, present but malformed JSON, or present and well formed. -/
inductive ConfigFile where
  | missing
  | malformed
  | wellFormed (cfg : Config)
deriving DecidableEq

/-- Result of one load_config call: the value returned to the caller,
the process-wide global configuration afterwards, and whether an error
message was printed. -/
structure LoadResult where
  returned : Config
  newGlobal : Config
  loggedError : Bool
deriving DecidableEq

/-- src/bot.py lines 44-57, load_config: when the file exists and parses,
the global is replaced and returned; when the file is missing, the
function falls through to return the untouched global with no message;
when parsing raises, the handler prints an error and returns the empty
dict, leaving the global untouched. -/
def load_config (globalConfig : Config) (file : ConfigFile) : LoadResult :=
  match file with
  | .missing => { returned := globalConfig, newGlobal := globalConfig, loggedError := false }
  | .malformed => { returned := emptyConfig, newGlobal := globalConfig, loggedError := true }
  | .wellFormed cfg => { returned := cfg, newGlobal := cfg, loggedError := false }

/-
Restore output streaming, src/bot.py lines 242-264 (run_restore_process).
The loop reads stdout in chunks of at most 1000 characters; each
non-empty read is appended to a buffer, and whenever the buffer reaches
3500 characters the first 3500 are flushed as one Telegram message (the
payload is wrapped in a Markdown code fence by the source; the model
records the payloads). After end of stream, a non-empty remainder is
flushed as a final message. src/main.py lines 237-252 are the same loop
with threshold 4000.
-/

/-- The read-and-flush loop of run_restore_process over the list of
values successively returned by stdout.read(1000), starting from the
given buffer; returns the flushed message payloads in order. -/
def restore_output_loop (threshold : Nat) :
    List (List Char) → List Char → List (List Char)
  | [], output_buffer =>
    if 0 < output_buffer.length then [output_buffer] else []
  | output :: rest, output_buffer =>
    if output.isEmpty then restore_output_loop threshold rest output_buffer
    else if threshold ≤ (output_buffer ++ output).length then
      (output_buffer ++ output).take threshold
        :: restore_output_loop threshold rest ((output_buffer ++ output).drop threshold)
    else
      restore_output_loop threshold rest (output_buffer ++ output)

/-- The full list of streamed message payloads produced by
run_restore_process for a given sequence of reads (buffer starts empty). -/
def restore_output_messages (threshold : Nat) (reads : List (List Char)) :
    List (List Char) :=
  restore_output_loop threshold reads []

/-- Flush threshold of src/bot.py line 250. -/
def RESTORE_CHUNK_BOT : Nat := 3500

/-- Flush threshold of src/main.py line 246. -/
def RESTORE_CHUNK_MAIN : Nat := 4000

/-
Command router and restore session state machine, src/bot.py lines
370-586. The per-chat session state is the value stored in user_states
for the sender chat: absent or None is modelled as none, the string
value as some. Replies are abstracted to which handler message was sent.
-/

/-- Which user-facing message a handler sent. -/
inductive Reply where
  | unauthorized
  | backupStart
  | statusMsg
  | timeHelp
  | timeValueError
  | timeSuccess
  | timeSaveError
  | restoreGuide
  | cancelConfirm
  | cancelNothing
  | docInvalidFormat
  | docStartRestore
  | docDownloadError
deriving DecidableEq

/-- Environment of one handler call: whether the document download would
succeed and whether save_config would succeed. -/
structure HandlerEnv where
  downloadOk : Bool
  saveOk : Bool
deriving DecidableEq

/-- Observable outcome of one handler call: the sender chat session
state afterwards, the replies sent (in order), how many restore and
backup worker threads were spawned, the file written to disk (path and
content), the in-memory configuration afterwards (saved iff configSaved),
and the mutable global MIN_INTERVAL_HOURS afterwards. -/
structure StepResult where
  newState : Option String
  replies : List Reply
  restoreSpawns : Nat
  backupSpawns : Nat
  fileWritten : Option (String × String)
  newConfig : Config
  configSaved : Bool
  newMinGlobal : Int
deriving DecidableEq

/-- A handler outcome in which nothing changed and nothing was sent. -/
def idleResult (cfg : Config) (g : Int) (st : Option String) : StepResult :=
  { newState := st, replies := [], restoreSpawns := 0, backupSpawns := 0,
    fileWritten := none, newConfig := cfg, configSaved := false, newMinGlobal := g }

/-- src/bot.py line 376: str(message.chat.id) != str(chat_id). The
sender identifier is compared against the stringified configured chat
identifier (str(None) is the string None when the key is absent). -/
def chatIdStr (cfg : Config) : String :=
  cfg.chat_id.getD "None"

/-- The authorization gate every handler applies first. -/
def authorized (cfg : Config) (sender : String) : Bool :=
  sender == chatIdStr cfg

/-- src/bot.py lines 370-396, handle_backup_command: unauthorized
senders get a rejection; otherwise a start message is sent and one
forced-backup worker thread is spawned. -/
def handle_backup_command (cfg : Config) (g : Int) (st : Option String)
    (sender : String) : StepResult :=
  if !authorized cfg sender then
    { idleResult cfg g st with replies := [Reply.unauthorized] }
  else
    { idleResult cfg g st with replies := [Reply.backupStart], backupSpawns := 1 }

/-- src/bot.py lines 398-432, handle_status_command: unauthorized
senders get a rejection; otherwise the status message is sent and
nothing changes. -/
def handle_status_command (cfg : Config) (g : Int) (st : Option String)
    (sender : String) : StepResult :=
  if !authorized cfg sender then
    { idleResult cfg g st with replies := [Reply.unauthorized] }
  else
    { idleResult cfg g st with replies := [Reply.statusMsg] }

/-- Python str.split with no argument: split on whitespace runs,
discarding empty pieces. -/
def pySplit (s : String) : List String :=
  ((((splitOnChar ' ' s).flatMap (splitOnChar '\t')).flatMap
      (splitOnChar '\n')).flatMap (splitOnChar '\r')).filter
    (fun p => p != "")

/-- Python str.isdigit restricted to ASCII: nonempty and all digits. -/
def pyIsDigit (s : String) : Bool :=
  s != "" && s.toList.all Char.isDigit

/-- Python int() on a digit string. -/
def digitsToNat (s : String) : Nat :=
  s.toList.foldl (fun n c => n * 10 + (c.toNat - 48)) 0

/-- src/bot.py lines 434-476, handle_time_command: unauthorized senders
get a rejection; a missing or non-digit argument gets the help message
and changes nothing; the value zero gets the value-error message and
changes nothing; otherwise min_interval_hours is set in the loaded
configuration and saved, and on save success the global
MIN_INTERVAL_HOURS is updated as well. -/
def handle_time_command (cfg : Config) (g : Int) (st : Option String)
    (sender text : String) (env : HandlerEnv) : StepResult :=
  if !authorized cfg sender then
    { idleResult cfg g st with replies := [Reply.unauthorized] }
  else
    let parts := pySplit text
    if parts.length < 2 || !pyIsDigit (parts.getD 1 "") then
      { idleResult cfg g st with replies := [Reply.timeHelp] }
    else
      let new_interval : Int := (digitsToNat (parts.getD 1 "") : Int)
      if new_interval ≤ 0 then
        { idleResult cfg g st with replies := [Reply.timeValueError] }
      else
        let config_data := { cfg with min_interval_hours := some new_interval }
        if env.saveOk then
          { idleResult cfg g st with
            newConfig := config_data, configSaved := true,
            newMinGlobal := new_interval, replies := [Reply.timeSuccess] }
        else
          { idleResult cfg g st with
            newConfig := config_data, configSaved := false,
            replies := [Reply.timeSaveError] }

/-- src/bot.py lines 478-503, handle_restore_command: unauthorized
senders get a rejection; otherwise the sender state is set to
waiting_restore from any previous state and the guide message is sent. -/
def handle_restore_command (cfg : Config) (g : Int) (st : Option String)
    (sender : String) : StepResult :=
  if !authorized cfg sender then
    { idleResult cfg g st with replies := [Reply.unauthorized] }
  else
    { idleResult cfg g st with
      newState := some "waiting_restore",
      replies := [Reply.restoreGuide] }

/-- src/bot.py lines 505-526, handle_cancel_command: unauthorized
senders get a rejection; if the sender state is waiting_restore it is
cleared and a confirmation is sent; otherwise nothing changes and the
no-active-operation message is sent. -/
def handle_cancel_command (cfg : Config) (g : Int) (st : Option String)
    (sender : String) : StepResult :=
  if !authorized cfg sender then
    { idleResult cfg g st with replies := [Reply.unauthorized] }
  else if st == some "waiting_restore" then
    { idleResult cfg g st with newState := none, replies := [Reply.cancelConfirm] }
  else
    { idleResult cfg g st with replies := [Reply.cancelNothing] }

/-- posixpath.join of a directory and one further component: an absolute
second component replaces the first entirely. -/
def os_path_join (a b : String) : String :=
  if strStartsWith b "/" then b
  else if a == "" || strEndsWith a "/" then a ++ b
  else a ++ "/" ++ b

/-- src/bot.py lines 528-586, handle_document: unauthorized senders are
ignored with no reply; a sender not in waiting_restore is ignored; an
invalid suffix gets a rejection and leaves the state unchanged; a valid
suffix downloads the file, writes it to TEMP_DIR joined with the
verbatim sender-supplied file name, clears the state, acknowledges, and
spawns exactly one restore worker thread; a failed download gets an
error reply and leaves the state unchanged. -/
def handle_document (cfg : Config) (g : Int) (st : Option String)
    (sender file_name content : String) (env : HandlerEnv) : StepResult :=
  if !authorized cfg sender then
    idleResult cfg g st
  else if st != some "waiting_restore" then
    idleResult cfg g st
  else if !(strEndsWith file_name ".bak" || strEndsWith file_name ".dump.gz") then
    { idleResult cfg g st with replies := [Reply.docInvalidFormat] }
  else if env.downloadOk then
    { idleResult cfg g st with
      fileWritten := some (os_path_join TEMP_DIR file_name, content),
      newState := none, replies := [Reply.docStartRestore], restoreSpawns := 1 }
  else
    { idleResult cfg g st with replies := [Reply.docDownloadError] }

/-- An inbound chat event: one of the five commands or a document. -/
inductive Event where
  | backupCmd
  | statusCmd
  | restoreCmd
  | cancelCmd
  | timeCmd (text : String)
  | document (file_name content : String)
deriving DecidableEq

/-- Whether the event is a document rather than a command. -/
def Event.isDocument : Event → Bool
  | .document _ _ => true
  | _ => false

/-- The command router: dispatch one inbound event to its handler. -/
def handle_event (cfg : Config) (g : Int) (st : Option String)
    (sender : String) (ev : Event) (env : HandlerEnv) : StepResult :=
  match ev with
  | .backupCmd => handle_backup_command cfg g st sender
  | .statusCmd => handle_status_command cfg g st sender
  | .restoreCmd => handle_restore_command cfg g st sender
  | .cancelCmd => handle_cancel_command cfg g st sender
  | .timeCmd text => handle_time_command cfg g st sender text env
  | .document n c => handle_document cfg g st sender n c env

/-- Apply the file write recorded in a handler outcome to a filesystem
modelled as a map from path to content. -/
def applyWrite (fs : String → Option String) (r : StepResult) :
    String → Option String :=
  match r.fileWritten with
  | some pc => fun q => if q = pc.1 then some pc.2 else fs q
  | none => fs

/-- Resolve an absolute POSIX path into its component list, interpreting
dot and dot-dot components. -/
def normalizeComponents (p : String) : List String :=
  (splitOnChar '/' p).foldl
    (fun acc c =>
      if c = "" || c = "." then acc
      else if c = ".." then acc.dropLast
      else acc ++ [c])
    []

/-- Whether the resolved path lies inside the resolved directory. -/
def withinDir (dir p : String) : Bool :=
  (normalizeComponents p).take (normalizeComponents dir).length
    == normalizeComponents dir

/-
Theorems.
-/

/-- On a run that is not forced, with elapsed time below the minimum
interval, the throttle check fails. -/
theorem check_backup_interval_false
    (g : Int) (cfg : Config) (now lb h : Int)
    (hlb : cfg.last_backup = some lb) (hlb0 : lb ≠ 0)
    (hmin : cfg.min_interval_hours = some h)
    (helapsed : now - lb < h * 3600) :
    check_backup_interval g cfg now = false := by
  unfold check_backup_interval
  rw [hlb]
  have h0 : (lb != 0) = true := by simpa using hlb0
  simp only [h0, if_true, minIntervalHours, hmin, Option.getD_some]
  simp [helapsed]

/-- A forced run always reaches the external script invocation. -/
theorem run_backup_process_force_invokes
    (g : Int) (cfg : Config) (now : Int) (env : BackupEnv) :
    (run_backup_process true g cfg now env).scriptInvoked = true := by
  unfold run_backup_process
  simp only [Bool.not_true, Bool.false_and, Bool.false_eq_true, if_false]
  cases hs : env.scriptOk
  · simp
  · simp only [Bool.not_true, Bool.false_eq_true, if_false]
    cases hp : parseBackupFilePath env.scriptStdout
    · rfl
    · simp only
      split <;> rfl

/-- Claim C1: with a recorded last-backup timestamp and
min_interval_hours equal to h, an unforced backup attempt made less
than h hours later returns the skipped outcome without invoking the
external backup script, while a forced attempt always invokes the
external script regardless of elapsed time. -/
theorem backup_throttle_skips_and_force_invokes
    (g : Int) (cfg : Config) (now lb h : Int) (env : BackupEnv)
    (hlb : cfg.last_backup = some lb) (hlb0 : lb ≠ 0)
    (hmin : cfg.min_interval_hours = some h)
    (helapsed : now - lb < h * 3600) :
    ((run_backup_process false g cfg now env).skipped = true
      ∧ (run_backup_process false g cfg now env).scriptInvoked = false)
    ∧ (run_backup_process true g cfg now env).scriptInvoked = true := by
  have hc := check_backup_interval_false g cfg now lb h hlb hlb0 hmin helapsed
  refine ⟨⟨?_, ?_⟩, run_backup_process_force_invokes g cfg now env⟩ <;>
    · unfold run_backup_process
      simp [hc]

/-- A backup environment with a failing script and nothing on disk. -/
def envFailingScript : BackupEnv :=
  { scriptOk := false, scriptStdout := [],
    fileExists := fun _ => false, fileSize := fun _ => 0,
    backupDirListing := [("old.dump.gz", 100)], sendOk := false }

/-- Configuration with a last backup one hour before time 7200 and a
two-hour minimum interval. -/
def cfgRecent : Config :=
  { bot_token := none, chat_id := none, last_backup := some 3600,
    min_interval_hours := some 2 }

/-- Witness for the claim C1 theorem at a concrete input. -/
theorem backup_throttle_skips_and_force_invokes_witness :
    (cfgRecent.last_backup = some 3600 ∧ (3600 : Int) ≠ 0
      ∧ cfgRecent.min_interval_hours = some 2
      ∧ (7200 : Int) - 3600 < 2 * 3600)
    ∧ (((run_backup_process false 2 cfgRecent 7200 envFailingScript).skipped = true
        ∧ (run_backup_process false 2 cfgRecent 7200 envFailingScript).scriptInvoked = false)
      ∧ (run_backup_process true 2 cfgRecent 7200 envFailingScript).scriptInvoked = true) :=
  ⟨⟨rfl, by decide, rfl, by decide⟩,
    backup_throttle_skips_and_force_invokes 2 cfgRecent 7200 3600 2 envFailingScript
      rfl (by decide) rfl (by decide)⟩

/-- Claim C3: the persisted last-backup timestamp is updated if and only
if an artifact was produced and either the upload succeeded or no
credentials were configured; after a failed upload the configuration is
left unchanged and nothing is saved. -/
theorem last_backup_update_iff_upload_complete
    (force : Bool) (g : Int) (cfg : Config) (now : Int) (env : BackupEnv) :
    ((run_backup_process force g cfg now env).configSaved = true
        ∧ (run_backup_process force g cfg now env).finalConfig.last_backup = some now
      ↔ artifactProduced force g cfg now env = true
        ∧ (env.sendOk = true ∨ credsConfigured cfg = false))
    ∧ (artifactProduced force g cfg now env = true
        → credsConfigured cfg = true → env.sendOk = false
        → (run_backup_process force g cfg now env).finalConfig = cfg
          ∧ (run_backup_process force g cfg now env).configSaved = false) := by
  unfold run_backup_process artifactProduced backupThrottled validArtifact
  cases hthr : (!force && !check_backup_interval g cfg now)
  · cases hok : env.scriptOk
    · simp [hthr, hok]
    · cases hparse : parseBackupFilePath env.scriptStdout
      · simp [hthr, hok, hparse]
      · rename_i p
        cases hval : (p != "" && env.fileExists p && decide (0 < env.fileSize p))
        · simp [hthr, hok, hparse, hval]
        · cases hcreds : credsConfigured cfg <;> cases hsend : env.sendOk <;>
            simp [hthr, hok, hparse, hval, hcreds, hsend]
  · simp [hthr]

/-- Witness for the claim C3 theorem at a concrete input: a produced
artifact with no credentials configured updates and saves last_backup. -/
theorem last_backup_update_iff_upload_complete_witness :
    ((run_backup_process true 2 emptyConfig 1000
          { scriptOk := true, scriptStdout := ["BACKUP_FILE_PATH=/tmp/a.dump.gz"],
            fileExists := fun p => p == "/tmp/a.dump.gz", fileSize := fun _ => 7,
            backupDirListing := [], sendOk := false }).configSaved = true
        ∧ (run_backup_process true 2 emptyConfig 1000
          { scriptOk := true, scriptStdout := ["BACKUP_FILE_PATH=/tmp/a.dump.gz"],
            fileExists := fun p => p == "/tmp/a.dump.gz", fileSize := fun _ => 7,
            backupDirListing := [], sendOk := false }).finalConfig.last_backup = some 1000
      ↔ artifactProduced true 2 emptyConfig 1000
          { scriptOk := true, scriptStdout := ["BACKUP_FILE_PATH=/tmp/a.dump.gz"],
            fileExists := fun p => p == "/tmp/a.dump.gz", fileSize := fun _ => 7,
            backupDirListing := [], sendOk := false } = true
        ∧ ((false : Bool) = true ∨ credsConfigured emptyConfig = false)) :=
  (last_backup_update_iff_upload_complete true 2 emptyConfig 1000
    { scriptOk := true, scriptStdout := ["BACKUP_FILE_PATH=/tmp/a.dump.gz"],
      fileExists := fun p => p == "/tmp/a.dump.gz", fileSize := fun _ => 7,
      backupDirListing := [], sendOk := false }).1

/-- Claim C4: whenever an artifact was produced, the local artifact file
is removed before run_backup_process returns, for every upload outcome
(success, failure, or no credentials configured). -/
theorem local_artifact_always_deleted
    (force : Bool) (g : Int) (cfg : Config) (now : Int) (env : BackupEnv)
    (hp : artifactProduced force g cfg now env = true) :
    (run_backup_process force g cfg now env).artifactRemoved
      = parseBackupFilePath env.scriptStdout
    ∧ (run_backup_process force g cfg now env).artifactRemoved ≠ none := by
  unfold artifactProduced backupThrottled validArtifact at hp
  unfold run_backup_process
  cases hparse : parseBackupFilePath env.scriptStdout with
  | none => rw [hparse] at hp; simp at hp
  | some p =>
    rw [hparse] at hp
    simp only [Bool.and_eq_true] at hp
    obtain ⟨⟨hthr, hok⟩, hval⟩ := hp
    have hthr' : (!force && !check_backup_interval g cfg now) = false := by
      cases h : (!force && !check_backup_interval g cfg now)
      · rfl
      · rw [h] at hthr; exact absurd hthr (by simp)
    rw [hthr']
    simp only [Bool.false_eq_true, if_false, hok, Bool.not_true, hparse, hval, if_true]
    simp

/-- Witness for the claim C4 theorem at a concrete input with
credentials configured and a failing upload. -/
theorem local_artifact_always_deleted_witness :
    (artifactProduced false 2
        { bot_token := some "t", chat_id := some "1", last_backup := none,
          min_interval_hours := none } 1000
        { scriptOk := true, scriptStdout := ["noise", "BACKUP_FILE_PATH=/tmp/b.dump.gz"],
          fileExists := fun p => p == "/tmp/b.dump.gz", fileSize := fun _ => 3,
          backupDirListing := [], sendOk := false } = true)
    ∧ ((run_backup_process false 2
        { bot_token := some "t", chat_id := some "1", last_backup := none,
          min_interval_hours := none } 1000
        { scriptOk := true, scriptStdout := ["noise", "BACKUP_FILE_PATH=/tmp/b.dump.gz"],
          fileExists := fun p => p == "/tmp/b.dump.gz", fileSize := fun _ => 3,
          backupDirListing := [], sendOk := false }).artifactRemoved
        = parseBackupFilePath ["noise", "BACKUP_FILE_PATH=/tmp/b.dump.gz"]
      ∧ (run_backup_process false 2
        { bot_token := some "t", chat_id := some "1", last_backup := none,
          min_interval_hours := none } 1000
        { scriptOk := true, scriptStdout := ["noise", "BACKUP_FILE_PATH=/tmp/b.dump.gz"],
          fileExists := fun p => p == "/tmp/b.dump.gz", fileSize := fun _ => 3,
          backupDirListing := [], sendOk := false }).artifactRemoved ≠ none) :=
  ⟨by decide,
    local_artifact_always_deleted false 2
      { bot_token := some "t", chat_id := some "1", last_backup := none,
        min_interval_hours := none } 1000
      { scriptOk := true, scriptStdout := ["noise", "BACKUP_FILE_PATH=/tmp/b.dump.gz"],
        fileExists := fun p => p == "/tmp/b.dump.gz", fileSize := fun _ => 3,
        backupDirListing := [], sendOk := false } (by decide)⟩

/-- A backup cycle whose script fails while an expired artifact sits in
the backup directory. -/
def envC2 : BackupEnv :=
  { scriptOk := false, scriptStdout := [],
    fileExists := fun _ => false, fileSize := fun _ => 0,
    backupDirListing := [("old.dump.gz", 100)], sendOk := false }

/-- Counterexample to claim C2 as stated: on a (forced) backup cycle
whose own backup failed, an expired .dump.gz file in the backup
directory is NOT deleted — the retention sweep only runs after a valid
artifact was produced. -/
theorem retention_sweep_not_run_on_failed_cycle :
    ("old.dump.gz", (100 : Int)) ∈ envC2.backupDirListing
    ∧ strEndsWith "old.dump.gz" ".dump.gz" = true
    ∧ (100 : Int) < 1000000 - RETENTION_DAYS * 86400
    ∧ "old.dump.gz" ∉
        (run_backup_process true 2 emptyConfig 1000000 envC2).oldFilesDeleted := by
  decide

/-- Claim C2 as amended: on every backup cycle that produced a valid
artifact (whatever the upload outcome), every .dump.gz file in the
backup directory older than the retention horizon is deleted; a cycle
that was skipped or whose backup failed deletes nothing. -/
theorem retention_sweep_on_successful_cycle
    (force : Bool) (g : Int) (cfg : Config) (now : Int) (env : BackupEnv) :
    (artifactProduced force g cfg now env = true →
      ∀ n m, (n, m) ∈ env.backupDirListing → strEndsWith n ".dump.gz" = true →
        m < now - RETENTION_DAYS * 86400 →
        n ∈ (run_backup_process force g cfg now env).oldFilesDeleted)
    ∧ (artifactProduced force g cfg now env = false →
      (run_backup_process force g cfg now env).oldFilesDeleted = []) := by
  unfold run_backup_process artifactProduced backupThrottled validArtifact
  cases hthr : (!force && !check_backup_interval g cfg now)
  · cases hok : env.scriptOk
    · simp [hthr, hok]
    · cases hparse : parseBackupFilePath env.scriptStdout
      · simp [hthr, hok, hparse]
      · rename_i p
        cases hval : (p != "" && env.fileExists p && decide (0 < env.fileSize p))
        · simp [hthr, hok, hparse, hval]
        · simp only [hthr, hok, hparse, hval, Bool.not_false, Bool.true_and,
            Bool.false_eq_true, if_false, if_true]
          constructor
          · intro _ n m hmem hends hm
            refine List.mem_map_of_mem _ (List.mem_filter.mpr ⟨hmem, ?_⟩)
            simp [hends, hm]
          · intro hcontra
            simp at hcontra
  · simp [hthr]

/-- A successful backup cycle with one expired and one fresh artifact in
the backup directory. -/
def envSweep : BackupEnv :=
  { scriptOk := true, scriptStdout := ["BACKUP_FILE_PATH=/tmp/new.dump.gz"],
    fileExists := fun p => p == "/tmp/new.dump.gz", fileSize := fun _ => 5,
    backupDirListing := [("a.dump.gz", 0), ("keep.dump.gz", 999999), ("c.txt", 0)],
    sendOk := false }

/-- Witness for the amended claim C2 theorem at a concrete input. -/
theorem retention_sweep_on_successful_cycle_witness :
    artifactProduced true 2 emptyConfig 1000000 envSweep = true
    ∧ ("a.dump.gz", (0 : Int)) ∈ envSweep.backupDirListing
    ∧ strEndsWith "a.dump.gz" ".dump.gz" = true
    ∧ (0 : Int) < 1000000 - RETENTION_DAYS * 86400
    ∧ "a.dump.gz" ∈
        (run_backup_process true 2 emptyConfig 1000000 envSweep).oldFilesDeleted :=
  ⟨by decide, by decide, by decide, by decide,
    (retention_sweep_on_successful_cycle true 2 emptyConfig 1000000 envSweep).1
      (by decide) "a.dump.gz" 0 (by decide) (by decide) (by decide)⟩

/-- Claim C5: the per-chat restore session state machine. From the
authorized chat: /restore sets waiting_restore from any state; /cancel
from waiting_restore clears the state and confirms; /cancel from idle
leaves the state and sends the nothing-to-cancel reply; a document with
an invalid suffix while waiting leaves the state waiting with a
rejection reply; a document with a valid suffix while waiting clears
the state and spawns exactly one restore invocation; a document while
idle changes nothing and spawns nothing. -/
theorem restore_session_state_machine
    (cfg : Config) (g : Int) (sender : String) (env : HandlerEnv)
    (st : Option String) (name content : String)
    (hauth : authorized cfg sender = true)
    (hdl : env.downloadOk = true) :
    ((handle_event cfg g st sender Event.restoreCmd env).newState
        = some "waiting_restore")
    ∧ ((handle_event cfg g (some "waiting_restore") sender Event.cancelCmd env).newState
          = none
      ∧ (handle_event cfg g (some "waiting_restore") sender Event.cancelCmd env).replies
          = [Reply.cancelConfirm])
    ∧ ((handle_event cfg g none sender Event.cancelCmd env).newState = none
      ∧ (handle_event cfg g none sender Event.cancelCmd env).replies
          = [Reply.cancelNothing])
    ∧ ((strEndsWith name ".bak" || strEndsWith name ".dump.gz") = false →
        (handle_event cfg g (some "waiting_restore") sender
            (Event.document name content) env).newState = some "waiting_restore"
      ∧ (handle_event cfg g (some "waiting_restore") sender
            (Event.document name content) env).replies = [Reply.docInvalidFormat]
      ∧ (handle_event cfg g (some "waiting_restore") sender
            (Event.document name content) env).restoreSpawns = 0)
    ∧ ((strEndsWith name ".bak" || strEndsWith name ".dump.gz") = true →
        (handle_event cfg g (some "waiting_restore") sender
            (Event.document name content) env).newState = none
      ∧ (handle_event cfg g (some "waiting_restore") sender
            (Event.document name content) env).restoreSpawns = 1)
    ∧ ((handle_event cfg g none sender (Event.document name content) env).newState
          = none
      ∧ (handle_event cfg g none sender (Event.document name content) env).restoreSpawns
          = 0
      ∧ (handle_event cfg g none sender (Event.document name content) env).replies
          = []) := by
  refine ⟨?_, ⟨?_, ?_⟩, ⟨?_, ?_⟩, ?_, ?_, ⟨?_, ?_, ?_⟩⟩
  · simp [handle_event, handle_restore_command, idleResult, hauth]
  · simp [handle_event, handle_cancel_command, idleResult, hauth]
  · simp [handle_event, handle_cancel_command, idleResult, hauth]
  · simp [handle_event, handle_cancel_command, idleResult, hauth]
  · simp [handle_event, handle_cancel_command, idleResult, hauth]
  · intro hbad
    simp [handle_event, handle_document, idleResult, hauth, hbad]
  · intro hgood
    simp [handle_event, handle_document, idleResult, hauth, hgood, hdl]
  · simp [handle_event, handle_document, idleResult, hauth]
  · simp [handle_event, handle_document, idleResult, hauth]
  · simp [handle_event, handle_document, idleResult, hauth]

/-- A configuration whose authorized chat identifier is 42. -/
def cfgAuth : Config :=
  { bot_token := some "t", chat_id := some "42", last_backup := none,
    min_interval_hours := none }

/-- Witness for the claim C5 theorem at a concrete input. -/
theorem restore_session_state_machine_witness :
    (authorized cfgAuth "42" = true
      ∧ ({ downloadOk := true, saveOk := true } : HandlerEnv).downloadOk = true)
    ∧ ((handle_event cfgAuth 2 none "42" Event.restoreCmd
          { downloadOk := true, saveOk := true }).newState = some "waiting_restore"
      ∧ ((handle_event cfgAuth 2 (some "waiting_restore") "42" Event.cancelCmd
            { downloadOk := true, saveOk := true }).newState = none
        ∧ (handle_event cfgAuth 2 (some "waiting_restore") "42" Event.cancelCmd
            { downloadOk := true, saveOk := true }).replies = [Reply.cancelConfirm])
      ∧ ((handle_event cfgAuth 2 none "42" Event.cancelCmd
            { downloadOk := true, saveOk := true }).newState = none
        ∧ (handle_event cfgAuth 2 none "42" Event.cancelCmd
            { downloadOk := true, saveOk := true }).replies = [Reply.cancelNothing])
      ∧ ((strEndsWith "a.bak" ".bak" || strEndsWith "a.bak" ".dump.gz") = false →
          (handle_event cfgAuth 2 (some "waiting_restore") "42"
              (Event.document "a.bak" "z") { downloadOk := true, saveOk := true }).newState
            = some "waiting_restore"
        ∧ (handle_event cfgAuth 2 (some "waiting_restore") "42"
              (Event.document "a.bak" "z") { downloadOk := true, saveOk := true }).replies
            = [Reply.docInvalidFormat]
        ∧ (handle_event cfgAuth 2 (some "waiting_restore") "42"
              (Event.document "a.bak" "z") { downloadOk := true, saveOk := true }).restoreSpawns
            = 0)
      ∧ ((strEndsWith "a.bak" ".bak" || strEndsWith "a.bak" ".dump.gz") = true →
          (handle_event cfgAuth 2 (some "waiting_restore") "42"
              (Event.document "a.bak" "z") { downloadOk := true, saveOk := true }).newState
            = none
        ∧ (handle_event cfgAuth 2 (some "waiting_restore") "42"
              (Event.document "a.bak" "z") { downloadOk := true, saveOk := true }).restoreSpawns
            = 1)
      ∧ ((handle_event cfgAuth 2 none "42" (Event.document "a.bak" "z")
            { downloadOk := true, saveOk := true }).newState = none
        ∧ (handle_event cfgAuth 2 none "42" (Event.document "a.bak" "z")
            { downloadOk := true, saveOk := true }).restoreSpawns = 0
        ∧ (handle_event cfgAuth 2 none "42" (Event.document "a.bak" "z")
            { downloadOk := true, saveOk := true }).replies = [])) :=
  ⟨⟨by decide, rfl⟩,
    restore_session_state_machine cfgAuth 2 "42" { downloadOk := true, saveOk := true }
      none "a.bak" "z" (by decide) rfl⟩

/-- Claim C7 as amended: an inbound event whose sender is not the
configured chat causes no side effect at all (no session-state change,
no file write, no spawned process, no configuration change); commands
receive the authorization-denied reply, while documents are ignored
silently with no reply at all. -/
theorem unauthorized_events_no_side_effects
    (cfg : Config) (g : Int) (st : Option String) (sender : String)
    (ev : Event) (env : HandlerEnv)
    (hna : authorized cfg sender = false) :
    (handle_event cfg g st sender ev env).newState = st
    ∧ (handle_event cfg g st sender ev env).fileWritten = none
    ∧ (handle_event cfg g st sender ev env).restoreSpawns = 0
    ∧ (handle_event cfg g st sender ev env).backupSpawns = 0
    ∧ (handle_event cfg g st sender ev env).newConfig = cfg
    ∧ (handle_event cfg g st sender ev env).configSaved = false
    ∧ (handle_event cfg g st sender ev env).newMinGlobal = g
    ∧ (ev.isDocument = false →
        (handle_event cfg g st sender ev env).replies = [Reply.unauthorized])
    ∧ (ev.isDocument = true →
        (handle_event cfg g st sender ev env).replies = []) := by
  cases ev <;>
    simp [handle_event, handle_backup_command, handle_status_command,
      handle_restore_command, handle_cancel_command, handle_time_command,
      handle_document, idleResult, Event.isDocument, hna]

/-- Witness for the amended claim C7 theorem at a concrete input. -/
theorem unauthorized_events_no_side_effects_witness :
    authorized cfgAuth "999" = false
    ∧ ((handle_event cfgAuth 2 none "999" Event.backupCmd
          { downloadOk := true, saveOk := true }).newState = none
      ∧ (handle_event cfgAuth 2 none "999" Event.backupCmd
          { downloadOk := true, saveOk := true }).fileWritten = none
      ∧ (handle_event cfgAuth 2 none "999" Event.backupCmd
          { downloadOk := true, saveOk := true }).restoreSpawns = 0
      ∧ (handle_event cfgAuth 2 none "999" Event.backupCmd
          { downloadOk := true, saveOk := true }).backupSpawns = 0
      ∧ (handle_event cfgAuth 2 none "999" Event.backupCmd
          { downloadOk := true, saveOk := true }).newConfig = cfgAuth
      ∧ (handle_event cfgAuth 2 none "999" Event.backupCmd
          { downloadOk := true, saveOk := true }).configSaved = false
      ∧ (handle_event cfgAuth 2 none "999" Event.backupCmd
          { downloadOk := true, saveOk := true }).newMinGlobal = 2
      ∧ (Event.backupCmd.isDocument = false →
          (handle_event cfgAuth 2 none "999" Event.backupCmd
            { downloadOk := true, saveOk := true }).replies = [Reply.unauthorized])
      ∧ (Event.backupCmd.isDocument = true →
          (handle_event cfgAuth 2 none "999" Event.backupCmd
            { downloadOk := true, saveOk := true }).replies = [])) :=
  ⟨by decide,
    unauthorized_events_no_side_effects cfgAuth 2 none "999" Event.backupCmd
      { downloadOk := true, saveOk := true } (by decide)⟩

/-- Counterexample to claim C7 as stated: a document from an
unauthorized chat receives NO reply at all — in particular no
authorization-denied message — rather than the denial reply the claim
asserts for every inbound command or document. -/
theorem unauthorized_document_gets_no_reply :
    authorized cfgAuth "999" = false
    ∧ (handle_event cfgAuth 2 (some "waiting_restore") "999"
        (Event.document "x.bak" "data") { downloadOk := true, saveOk := true }).replies
      = [] := by
  decide

/-- Claim C9: a /time command from the authorized chat with a positive
integer argument n persists min_interval_hours = n and updates the
in-memory global consulted as the throttle default, so the value the
throttle check reads afterwards is n; a missing or non-numeric argument
gets the help reply and changes nothing; a zero argument gets the
value-error reply and changes nothing. -/
theorem time_command_updates_interval
    (cfg : Config) (g : Int) (st : Option String) (sender text : String)
    (env : HandlerEnv)
    (hauth : authorized cfg sender = true) :
    ((2 ≤ (pySplit text).length → pyIsDigit ((pySplit text).getD 1 "") = true →
      0 < digitsToNat ((pySplit text).getD 1 "") → env.saveOk = true →
      (handle_event cfg g st sender (Event.timeCmd text) env).newConfig.min_interval_hours
          = some ((digitsToNat ((pySplit text).getD 1 "") : Nat) : Int)
      ∧ (handle_event cfg g st sender (Event.timeCmd text) env).configSaved = true
      ∧ (handle_event cfg g st sender (Event.timeCmd text) env).newMinGlobal
          = ((digitsToNat ((pySplit text).getD 1 "") : Nat) : Int)
      ∧ minIntervalHours
          (handle_event cfg g st sender (Event.timeCmd text) env).newMinGlobal
          (handle_event cfg g st sender (Event.timeCmd text) env).newConfig
          = ((digitsToNat ((pySplit text).getD 1 "") : Nat) : Int)
      ∧ (handle_event cfg g st sender (Event.timeCmd text) env).replies
          = [Reply.timeSuccess]
      ∧ (handle_event cfg g st sender (Event.timeCmd text) env).newState = st))
    ∧ (((pySplit text).length < 2 ∨ pyIsDigit ((pySplit text).getD 1 "") = false) →
      (handle_event cfg g st sender (Event.timeCmd text) env).replies = [Reply.timeHelp]
      ∧ (handle_event cfg g st sender (Event.timeCmd text) env).newConfig = cfg
      ∧ (handle_event cfg g st sender (Event.timeCmd text) env).configSaved = false
      ∧ (handle_event cfg g st sender (Event.timeCmd text) env).newMinGlobal = g
      ∧ (handle_event cfg g st sender (Event.timeCmd text) env).newState = st)
    ∧ ((2 ≤ (pySplit text).length → pyIsDigit ((pySplit text).getD 1 "") = true →
      digitsToNat ((pySplit text).getD 1 "") = 0 →
      (handle_event cfg g st sender (Event.timeCmd text) env).replies
          = [Reply.timeValueError]
      ∧ (handle_event cfg g st sender (Event.timeCmd text) env).newConfig = cfg
      ∧ (handle_event cfg g st sender (Event.timeCmd text) env).configSaved = false
      ∧ (handle_event cfg g st sender (Event.timeCmd text) env).newMinGlobal = g
      ∧ (handle_event cfg g st sender (Event.timeCmd text) env).newState = st)) := by
  refine ⟨?_, ?_, ?_⟩
  · intro hlen hdig hpos hsave
    have hlen2 : ¬ (pySplit text).length < 2 := by omega
    have hnz : digitsToNat ((pySplit text).getD 1 "") ≠ 0 := by omega
    rw [List.getD_eq_getElem?_getD] at hdig hnz
    simp [handle_event, handle_time_command, idleResult, minIntervalHours,
      hauth, hlen2, hdig, hnz, hsave]
  · intro hbad
    rcases hbad with h | h
    · simp [handle_event, handle_time_command, idleResult, hauth, h]
    · rw [List.getD_eq_getElem?_getD] at h
      simp [handle_event, handle_time_command, idleResult, hauth, h]
  · intro hlen hdig hzero
    have hlen2 : ¬ (pySplit text).length < 2 := by omega
    rw [List.getD_eq_getElem?_getD] at hdig hzero
    simp [handle_event, handle_time_command, idleResult, hauth, hlen2, hdig, hzero]

/-- Witness for the claim C9 theorem at a concrete input: /time 8. -/
theorem time_command_updates_interval_witness :
    (authorized cfgAuth "42" = true
      ∧ 2 ≤ (pySplit "/time 8").length
      ∧ pyIsDigit ((pySplit "/time 8").getD 1 "") = true
      ∧ 0 < digitsToNat ((pySplit "/time 8").getD 1 "")
      ∧ ({ downloadOk := true, saveOk := true } : HandlerEnv).saveOk = true)
    ∧ ((handle_event cfgAuth 2 none "42" (Event.timeCmd "/time 8")
          { downloadOk := true, saveOk := true }).newConfig.min_interval_hours
        = some ((digitsToNat ((pySplit "/time 8").getD 1 "") : Nat) : Int)
      ∧ (handle_event cfgAuth 2 none "42" (Event.timeCmd "/time 8")
          { downloadOk := true, saveOk := true }).configSaved = true
      ∧ (handle_event cfgAuth 2 none "42" (Event.timeCmd "/time 8")
          { downloadOk := true, saveOk := true }).newMinGlobal
        = ((digitsToNat ((pySplit "/time 8").getD 1 "") : Nat) : Int)
      ∧ minIntervalHours
          (handle_event cfgAuth 2 none "42" (Event.timeCmd "/time 8")
            { downloadOk := true, saveOk := true }).newMinGlobal
          (handle_event cfgAuth 2 none "42" (Event.timeCmd "/time 8")
            { downloadOk := true, saveOk := true }).newConfig
        = ((digitsToNat ((pySplit "/time 8").getD 1 "") : Nat) : Int)
      ∧ (handle_event cfgAuth 2 none "42" (Event.timeCmd "/time 8")
          { downloadOk := true, saveOk := true }).replies = [Reply.timeSuccess]
      ∧ (handle_event cfgAuth 2 none "42" (Event.timeCmd "/time 8")
          { downloadOk := true, saveOk := true }).newState = none) :=
  ⟨⟨by decide, by decide, by decide, by decide, rfl⟩,
    (time_command_updates_interval cfgAuth 2 none "42" "/time 8"
        { downloadOk := true, saveOk := true } (by decide)).1
      (by decide) (by decide) (by decide) rfl⟩

/-- Claim C10: an accepted restore document is written to TEMP_DIR
joined with the verbatim sender-supplied file name (no sanitization);
two uploads bearing the same name write to the same path and the second
overwrites the first; a file name containing path separator components
is written to a path that resolves outside the temporary directory. -/
theorem restore_file_path_verbatim_join
    (cfg : Config) (g : Int) (sender name c1 c2 : String) (env : HandlerEnv)
    (fs : String → Option String)
    (hauth : authorized cfg sender = true)
    (hsuffix : (strEndsWith name ".bak" || strEndsWith name ".dump.gz") = true)
    (hdl : env.downloadOk = true) :
    ((handle_event cfg g (some "waiting_restore") sender
        (Event.document name c1) env).fileWritten
      = some (os_path_join TEMP_DIR name, c1))
    ∧ ((handle_event cfg g (some "waiting_restore") sender
        (Event.document name c2) env).fileWritten
      = some (os_path_join TEMP_DIR name, c2))
    ∧ (applyWrite
        (applyWrite fs
          (handle_event cfg g (some "waiting_restore") sender (Event.document name c1) env))
        (handle_event cfg g (some "waiting_restore") sender (Event.document name c2) env)
        (os_path_join TEMP_DIR name) = some c2)
    ∧ ((handle_event cfg g (some "waiting_restore") sender
        (Event.document "../../etc/passwd.bak" c1) env).fileWritten
      = some (os_path_join TEMP_DIR "../../etc/passwd.bak", c1))
    ∧ "../../etc/passwd.bak".toList.contains '/' = true
    ∧ withinDir TEMP_DIR (os_path_join TEMP_DIR "../../etc/passwd.bak") = false := by
  refine ⟨?_, ?_, ?_, ?_, by decide, by decide⟩
  · simp [handle_event, handle_document, idleResult, hauth, hsuffix, hdl]
  · simp [handle_event, handle_document, idleResult, hauth, hsuffix, hdl]
  · simp [handle_event, handle_document, idleResult, applyWrite, hauth, hsuffix, hdl]
  · have hb : strEndsWith "../../etc/passwd.bak" ".bak" = true := by decide
    simp [handle_event, handle_document, idleResult, hauth, hdl, hb]

/-- Witness for the claim C10 theorem at a concrete input. -/
theorem restore_file_path_verbatim_join_witness :
    (authorized cfgAuth "42" = true
      ∧ (strEndsWith "db.bak" ".bak" || strEndsWith "db.bak" ".dump.gz") = true
      ∧ ({ downloadOk := true, saveOk := true } : HandlerEnv).downloadOk = true)
    ∧ (((handle_event cfgAuth 2 (some "waiting_restore") "42"
          (Event.document "db.bak" "AAA") { downloadOk := true, saveOk := true }).fileWritten
        = some (os_path_join TEMP_DIR "db.bak", "AAA"))
      ∧ ((handle_event cfgAuth 2 (some "waiting_restore") "42"
          (Event.document "db.bak" "BBB") { downloadOk := true, saveOk := true }).fileWritten
        = some (os_path_join TEMP_DIR "db.bak", "BBB"))
      ∧ (applyWrite
          (applyWrite (fun _ => none)
            (handle_event cfgAuth 2 (some "waiting_restore") "42"
              (Event.document "db.bak" "AAA") { downloadOk := true, saveOk := true }))
          (handle_event cfgAuth 2 (some "waiting_restore") "42"
            (Event.document "db.bak" "BBB") { downloadOk := true, saveOk := true })
          (os_path_join TEMP_DIR "db.bak") = some "BBB")
      ∧ ((handle_event cfgAuth 2 (some "waiting_restore") "42"
          (Event.document "../../etc/passwd.bak" "AAA")
          { downloadOk := true, saveOk := true }).fileWritten
        = some (os_path_join TEMP_DIR "../../etc/passwd.bak", "AAA"))
      ∧ "../../etc/passwd.bak".toList.contains '/' = true
      ∧ withinDir TEMP_DIR (os_path_join TEMP_DIR "../../etc/passwd.bak") = false) :=
  ⟨⟨by decide, by decide, rfl⟩,
    restore_file_path_verbatim_join cfgAuth 2 "42" "db.bak" "AAA" "BBB"
      { downloadOk := true, saveOk := true } (fun _ => none)
      (by decide) (by decide) rfl⟩

/-- Counterexample to claim C8 as stated: with a non-empty in-memory
configuration and a missing backing file, load_config returns the stale
in-memory configuration, not a default/empty one, and logs nothing. -/
theorem load_config_missing_returns_stale :
    (load_config { emptyConfig with bot_token := some "stale" }
        ConfigFile.missing).returned
      = { emptyConfig with bot_token := some "stale" }
    ∧ ({ emptyConfig with bot_token := some "stale" } : Config) ≠ emptyConfig
    ∧ (load_config { emptyConfig with bot_token := some "stale" }
        ConfigFile.missing).loggedError = false := by
  decide

/-- Claim C8 as amended: a malformed backing file makes load_config log
a recoverable error and return the empty configuration without raising
and without touching the in-memory global; a missing backing file makes
it return the current in-memory configuration unchanged (stale if the
file was deleted after a successful load) with no error logged; a
well-formed file replaces and returns the configuration. -/
theorem load_config_behavior (g c : Config) :
    load_config g ConfigFile.malformed
      = { returned := emptyConfig, newGlobal := g, loggedError := true }
    ∧ load_config g ConfigFile.missing
      = { returned := g, newGlobal := g, loggedError := false }
    ∧ load_config g (ConfigFile.wellFormed c)
      = { returned := c, newGlobal := c, loggedError := false } :=
  ⟨rfl, rfl, rfl⟩

/-- Expected flush sizes for a stream of n characters under a given
threshold: full chunks of the threshold size, then the remainder. -/
def lengthChunks (th n : Nat) : List Nat :=
  List.replicate (n / th) th ++ (if 0 < n % th then [n % th] else [])

/-- lengthChunks below the threshold is just the remainder. -/
theorem lengthChunks_small (th n : Nat) (h : n < th) :
    lengthChunks th n = if 0 < n then [n] else [] := by
  unfold lengthChunks
  rw [Nat.div_eq_of_lt h, Nat.mod_eq_of_lt h]
  simp

/-- lengthChunks peels one full chunk off the front. -/
theorem lengthChunks_step (th m : Nat) (hth : 0 < th) :
    lengthChunks th (th + m) = th :: lengthChunks th m := by
  unfold lengthChunks
  rw [Nat.add_comm th m, Nat.add_div_right m hth, Nat.add_mod_right m th]
  simp [List.replicate_succ]

/-- The read-and-flush loop flushes messages whose sizes are exactly the
chunk decomposition of the total stream length, provided every read is
at most the threshold (stdout.read(1000) returns at most 1000
characters, below both thresholds in the source). -/
theorem restore_loop_lengths (th : Nat) (hth : 0 < th) (reads : List (List Char)) :
    ∀ buffer : List Char, buffer.length < th →
      (∀ r ∈ reads, r.length ≤ th) →
      (restore_output_loop th reads buffer).map List.length
        = lengthChunks th (buffer.length + (reads.map List.length).sum) := by
  induction reads with
  | nil =>
    intro buffer hb _
    simp only [restore_output_loop, List.map_nil, List.sum_nil, Nat.add_zero]
    rw [lengthChunks_small th _ hb]
    by_cases h : 0 < buffer.length <;> simp [h]
  | cons r rs ih =>
    intro buffer hb hr
    have hrr : r.length ≤ th := hr r (List.mem_cons_self r rs)
    have hrs : ∀ x ∈ rs, x.length ≤ th := fun x hx => hr x (List.mem_cons_of_mem r hx)
    cases r with
    | nil =>
      have hskip : restore_output_loop th ([] :: rs) buffer
          = restore_output_loop th rs buffer := by
        simp [restore_output_loop]
      rw [hskip, ih buffer hb hrs]
      simp
    | cons a l =>
      have hlen : (buffer ++ a :: l).length = buffer.length + (a :: l).length :=
        List.length_append buffer (a :: l)
      simp only [restore_output_loop, List.isEmpty_cons]
      by_cases hge : th ≤ (buffer ++ a :: l).length
      · rw [if_neg (by simp), if_pos hge]
        have hdrop : ((buffer ++ a :: l).drop th).length < th := by
          rw [List.length_drop, hlen]
          omega
        rw [List.map_cons, ih _ hdrop hrs]
        have htake : ((buffer ++ a :: l).take th).length = th := by
          rw [List.length_take]
          exact Nat.min_eq_left hge
        rw [htake, List.length_drop, List.map_cons, List.sum_cons]
        have hN : buffer.length + ((a :: l).length + (rs.map List.length).sum)
            = th + ((buffer ++ a :: l).length - th + (rs.map List.length).sum) := by
          rw [hlen]
          omega
        rw [hN, lengthChunks_step th _ hth]
      · have hlt : (buffer ++ a :: l).length < th := Nat.lt_of_not_le hge
        rw [if_neg (by simp), if_neg hge, ih _ hlt hrs]
        congr 1
        rw [hlen, List.map_cons, List.sum_cons]
        omega

/-- Claim C6: a restore output stream totalling 9000 characters, read in
chunks of at most 1000 characters, flushed at the 3500-character
threshold of src/bot.py, produces exactly 3 outbound message payloads of
sizes 3500, 3500 and 2000, in that order. -/
theorem restore_stream_chunks_9000_3500
    (reads : List (List Char))
    (hr : ∀ r ∈ reads, r.length ≤ 1000)
    (htotal : (reads.map List.length).sum = 9000) :
    (restore_output_messages RESTORE_CHUNK_BOT reads).map List.length
      = [3500, 3500, 2000] := by
  unfold restore_output_messages
  rw [restore_loop_lengths RESTORE_CHUNK_BOT (by decide) reads []
      (by simp [RESTORE_CHUNK_BOT])
      (fun r h => le_trans (hr r h) (by decide))]
  simp only [List.length_nil, Nat.zero_add, htotal]
  decide

/-- Nine reads of 1000 identical characters each. -/
def reads9000 : List (List Char) := List.replicate 9 (List.replicate 1000 'a')

/-- Witness for the claim C6 theorem at a concrete input. -/
theorem restore_stream_chunks_9000_3500_witness :
    ((∀ r ∈ reads9000, r.length ≤ 1000)
      ∧ (reads9000.map List.length).sum = 9000)
    ∧ (restore_output_messages RESTORE_CHUNK_BOT reads9000).map List.length
        = [3500, 3500, 2000] :=
  ⟨⟨fun r hr => by rw [List.eq_of_mem_replicate hr]; simp,
    by simp [reads9000]⟩,
    restore_stream_chunks_9000_3500 reads9000
      (fun r hr => by rw [List.eq_of_mem_replicate hr]; simp)
      (by simp [reads9000])⟩
